import Mathlib

/-!
Verification development for the evidence coverage and determinability
scoring engine in tools/sia_public_audit_demo_003.py.

Modelling conventions:
- Python floats (relative timestamps, scores, weights) are modelled as
  exact rationals; every constant appearing in the program is a short
  decimal, represented exactly.
- Python str.startswith is modelled as character-list prefix testing.
- The fallible parts (the ValueError raised by mark on an unrecognized
  status string, and KeyError on dictionary lookups) are modelled with
  Option: none is the raising outcome.
- Presentation-only fields (status icons, evidence strings, unit titles
  and rationale text) are omitted: no scoring rule reads them.
-/

set_option autoImplicit false

namespace SIA

/-- Scalar or nested JSON-like value, used for the data payload of events. -/
inductive Val where
  | null
  | num (q : ℚ)
  | str (s : String)
  | bool (b : Bool)
  | obj (fields : List (String × Val))
deriving Repr

/-- Provenance metadata attached to an event (class SourceRef). -/
structure SourceRef where
  ref : String
  note : String
  confidence : String
deriving Repr, DecidableEq

/-- An incident event record (class Event): optional relative timestamp in
seconds, dot-namespaced type string, actor, data payload, optional source. -/
structure Event where
  t_rel_s : Option ℚ
  type : String
  actor : String
  data : List (String × Val)
  source : Option SourceRef
deriving Repr

/-- Python str.startswith, on the character list of the string. -/
def strStartsWith (s p : String) : Bool :=
  p.data.isPrefixOf s.data

/-- Function _has_event: some event type starts with the given prefix string. -/
def has_event (events : List Event) (pfx : String) : Bool :=
  events.any (fun e => strStartsWith e.type pfx)

/-- Function _has_event_type: some event type equals the given string exactly. -/
def has_event_type (events : List Event) (event_type : String) : Bool :=
  events.any (fun e => e.type == event_type)

/-- Function _has_timed_event: some event matches the prefix string and has a
non-null timestamp. -/
def has_timed_event (events : List Event) (pfx : String) : Bool :=
  events.any (fun e => strStartsWith e.type pfx && e.t_rel_s.isSome)

/-- Function _count_timed_events: how many events have a non-null timestamp. -/
def count_timed_events (events : List Event) : Nat :=
  (events.filter (fun e => e.t_rel_s.isSome)).length

/-- Function _find_earliest_time: the minimum of the non-null timestamps of
the events whose type matches the prefix string, none if there are none. -/
def find_earliest_time (events : List Event) (pfx : String) : Option ℚ :=
  (events.filterMap (fun e => if strStartsWith e.type pfx then e.t_rel_s else none)).min?

/-- Function _find_event: the first event whose type equals the given string. -/
def find_event (events : List Event) (event_type : String) : Option Event :=
  events.find? (fun e => e.type == event_type)

/-- Constant STATUS_SCORE: the score attached to each recognized status. -/
def STATUS_SCORE : List (String × ℚ) :=
  [("missing", 0), ("partial", 1/2), ("ok", 1)]

/-- One value of the coverage mapping: the status string and its score
(the presentation fields icon, evidence, title and why are omitted). -/
structure CovEntry where
  status : String
  score : ℚ
deriving Repr, DecidableEq

/-- A coverage mapping: unit key to entry, in insertion order. -/
abbrev Cov := List (String × CovEntry)

/-- The 9 unit keys of EVIDENCE_UNITS, in declaration order. -/
def EVIDENCE_UNIT_KEYS : List String :=
  ["time.base", "authority.mode_timeline", "perception.object_timeline",
   "prediction.risk_timeline", "planning.choice_timeline",
   "control.command_timeline", "human.input_attention",
   "software.version_manifest", "integrity.tamper_evidence"]

/-- Constant CRITICAL_UNITS. -/
def CRITICAL_UNITS : List String :=
  ["planning.choice_timeline", "control.command_timeline",
   "software.version_manifest", "integrity.tamper_evidence"]

/-- Constant CORE_WEIGHTS. -/
def CORE_WEIGHTS : List (String × ℚ) :=
  [("time.base", 0.15), ("authority.mode_timeline", 0.25),
   ("perception.object_timeline", 0.15), ("prediction.risk_timeline", 0.10),
   ("planning.choice_timeline", 0.15), ("control.command_timeline", 0.15),
   ("human.input_attention", 0.05)]

/-- Constant SUPPLY_WEIGHTS. -/
def SUPPLY_WEIGHTS : List (String × ℚ) :=
  [("software.version_manifest", 0.70), ("integrity.tamper_evidence", 0.30)]

/-- Inner function mark of compute_evidence_coverage: record a status for a
unit; an unrecognized status raises ValueError, modelled as none. -/
def mark (cov : Cov) (key status : String) : Option Cov :=
  match STATUS_SCORE.lookup status with
  | none => none
  | some sc => some (cov ++ [(key, ⟨status, sc⟩)])

/-- The time.base block of compute_evidence_coverage. -/
def step_time_base (events : List Event) (cov : Cov) : Option Cov :=
  if has_event_type events "impact" ∧ 2 ≤ count_timed_events events then
    mark cov "time.base" "ok"
  else if has_event_type events "impact" then
    mark cov "time.base" "partial"
  else
    mark cov "time.base" "missing"

/-- The authority.mode_timeline block of compute_evidence_coverage. -/
def step_authority (events : List Event) (cov : Cov) : Option Cov :=
  if has_timed_event events "authority.mode" then
    mark cov "authority.mode_timeline" "ok"
  else if has_event events "authority.mode" then
    mark cov "authority.mode_timeline" "partial"
  else
    mark cov "authority.mode_timeline" "missing"

/-- The perception.object_timeline block of compute_evidence_coverage. -/
def step_perception (events : List Event) (cov : Cov) : Option Cov :=
  if has_event events "perception.detect" ∧ has_event events "perception.classification"
      ∧ has_timed_event events "perception.detect" then
    mark cov "perception.object_timeline" "ok"
  else if has_event events "perception.detect" ∨ has_event events "perception.classification" then
    mark cov "perception.object_timeline" "partial"
  else
    mark cov "perception.object_timeline" "missing"

/-- The prediction.risk_timeline block of compute_evidence_coverage. -/
def step_prediction (events : List Event) (cov : Cov) : Option Cov :=
  if (has_event events "prediction." ∨ has_event events "risk.")
      ∧ (has_timed_event events "prediction." ∨ has_timed_event events "risk.") then
    mark cov "prediction.risk_timeline" "ok"
  else if has_event events "prediction." ∨ has_event events "risk." then
    mark cov "prediction.risk_timeline" "partial"
  else
    mark cov "prediction.risk_timeline" "missing"

/-- The planning.choice_timeline block of compute_evidence_coverage. -/
def step_planning (events : List Event) (cov : Cov) : Option Cov :=
  if has_event events "planning." then
    if has_timed_event events "planning." then
      mark cov "planning.choice_timeline" "ok"
    else
      mark cov "planning.choice_timeline" "partial"
  else
    mark cov "planning.choice_timeline" "missing"

/-- The tuple control_cmd_prefixes from the control block. -/
def control_cmd_types : List String :=
  ["control.command", "control.brake", "control.steer", "control.longitudinal",
   "control.lateral", "control.actuator", "control.response"]

/-- Local has_cmd of the control block: an event matching one of the command
type prefix strings exists. -/
def has_cmd (events : List Event) : Bool :=
  events.any (fun e => control_cmd_types.any (fun p => strStartsWith e.type p))

/-- Local has_cmd_t of the control block: a timed such event exists. -/
def has_cmd_t (events : List Event) : Bool :=
  events.any (fun e =>
    control_cmd_types.any (fun p => strStartsWith e.type p) && e.t_rel_s.isSome)

/-- The control.command_timeline block of compute_evidence_coverage. -/
def step_control (events : List Event) (cov : Cov) : Option Cov :=
  if has_cmd events ∧ has_cmd_t events then
    mark cov "control.command_timeline" "ok"
  else if has_cmd events ∨ has_event_type events "control.aeb_policy"
      ∨ has_event events "control." then
    mark cov "control.command_timeline" "partial"
  else
    mark cov "control.command_timeline" "missing"

/-- The human.input_attention block of compute_evidence_coverage. -/
def step_human (events : List Event) (cov : Cov) : Option Cov :=
  if has_event events "human." ∧ has_timed_event events "human." then
    mark cov "human.input_attention" "ok"
  else if has_event events "human." then
    mark cov "human.input_attention" "partial"
  else
    mark cov "human.input_attention" "missing"

/-- The software.version_manifest block of compute_evidence_coverage. -/
def step_software (events : List Event) (cov : Cov) : Option Cov :=
  if has_event events "software.version" then
    mark cov "software.version_manifest" "ok"
  else
    mark cov "software.version_manifest" "missing"

/-- The integrity.tamper_evidence block of compute_evidence_coverage. -/
def step_integrity (events : List Event) (cov : Cov) : Option Cov :=
  if has_event events "integrity." then
    mark cov "integrity.tamper_evidence" "ok"
  else
    mark cov "integrity.tamper_evidence" "missing"

/-- Function compute_evidence_coverage: the nine unit blocks in order,
populating the coverage mapping; none models a raised exception. -/
def compute_evidence_coverage (events : List Event) : Option Cov := do
  let cov ← step_time_base events []
  let cov ← step_authority events cov
  let cov ← step_perception events cov
  let cov ← step_prediction events cov
  let cov ← step_planning events cov
  let cov ← step_control events cov
  let cov ← step_human events cov
  let cov ← step_software events cov
  step_integrity events cov

/-- Function score_simple_average: mean of the scores of the given unit keys;
0.0 for an empty key list; a key absent from the coverage raises KeyError,
modelled as none. -/
def score_simple_average (coverage : Cov) (keys : List String) : Option ℚ :=
  if keys = [] then some 0
  else (keys.mapM (fun k => coverage.lookup k)).map
    (fun entries => (entries.map (fun en => en.score)).sum / (keys.length : ℚ))

/-- Function score_weighted: accumulate score times weight and the weight sum
over the weight entries whose key is in the coverage; keys not in the
coverage are skipped; 0.0 for an empty weight table or a nonpositive
weight sum. -/
def score_weighted (coverage : Cov) (weights : List (String × ℚ)) : ℚ :=
  if weights = [] then 0
  else
    let p := weights.foldl
      (fun (acc : ℚ × ℚ) kw =>
        match coverage.lookup kw.1 with
        | none => acc
        | some en => (acc.1 + en.score * kw.2, acc.2 + kw.2)) (0, 0)
    if 0 < p.2 then p.1 / p.2 else 0

/-- Python dict.get with default None on a data payload. -/
def dict_get (d : List (String × Val)) (k : String) : Val :=
  (d.lookup k).getD Val.null

/-- An optional rational stored into a metrics mapping: none becomes null. -/
def optNum : Option ℚ → Val
  | none => Val.null
  | some q => Val.num q

/-- Function derive_metrics: lead times, gaps and impact speed fields, in the
insertion order of the Python dictionary (conditional keys are absent when
their condition fails). -/
def derive_metrics (events : List Event) : List (String × Val) :=
  let t_detect := find_earliest_time events "perception.detect"
  let t_gaze := find_earliest_time events "human.attention"
  let t_steer := find_earliest_time events "human.control_input"
  [("lead_time_detection_s", optNum t_detect),
   ("lead_time_operator_gaze_to_road_s", optNum t_gaze),
   ("lead_time_operator_steer_s", optNum t_steer)]
  ++ (match t_detect, t_gaze with
      | some d, some g => [("gap_detect_to_gaze_s", Val.num (g - d))]
      | _, _ => [])
  ++ (match t_gaze, t_steer with
      | some g, some s => [("gap_gaze_to_steer_s", Val.num (s - g))]
      | _, _ => [])
  ++ (match find_event events "impact" with
      | some e => [("impact_speed_mph", dict_get e.data "speed_mph"),
                   ("impact_speed_kmh", dict_get e.data "speed_kmh")]
      | none => [])

/-- One of the seven key accountability questions: id, text, backing unit. -/
structure Question where
  id : String
  question : String
  unit : String
deriving Repr, DecidableEq

/-- The fixed question list of unanswerable_questions, in declaration order. -/
def questions : List Question :=
  [⟨"Q1", "誰が最終権限を持っていたか", "authority.mode_timeline"⟩,
   ⟨"Q2", "システムは対象を検知・追跡していたか", "perception.object_timeline"⟩,
   ⟨"Q3", "システムは危険（衝突）を評価していたか", "prediction.risk_timeline"⟩,
   ⟨"Q4", "システムは何を“選択”したか（候補と理由）", "planning.choice_timeline"⟩,
   ⟨"Q5", "システムは制動/回避のコマンドを出し、車は応答したか", "control.command_timeline"⟩,
   ⟨"Q6", "どの版数・更新履歴で起きたか（再現性/供給責任）", "software.version_manifest"⟩,
   ⟨"Q7", "ログは改竄不能か（完全性）", "integrity.tamper_evidence"⟩]

/-- One element of the unanswerable question list (the evidence field is
omitted with the other presentation strings). -/
structure QEntry where
  id : String
  question : String
  unit : String
  status : String
deriving Repr, DecidableEq

/-- Function unanswerable_questions: the questions whose backing unit has a
status other than ok, in question order; a unit key absent from the
coverage raises KeyError, modelled as none. -/
def unanswerable_questions (coverage : Cov) : Option (List QEntry) :=
  questions.foldlM
    (fun out q =>
      match coverage.lookup q.unit with
      | none => none
      | some en =>
          some (if en.status ≠ "ok" then
                  out ++ [⟨q.id, q.question, q.unit, en.status⟩]
                else out))
    []

/-! The reporting pipeline of render_report_md / print_console_summary:
coverage, then the four scores, the unanswerable list and the metrics. -/

/-- The status recorded for one unit by the computed coverage of an event
list (a mapping read along the pipeline; none models a raised exception). -/
def statusAt (events : List Event) (u : String) : Option String :=
  (compute_evidence_coverage events).bind
    (fun cov => (cov.lookup u).map (fun en => en.status))

/-- The A-score of an event list: simple average over all 9 units. -/
def a_score_of (events : List Event) : Option ℚ :=
  (compute_evidence_coverage events).bind
    (fun cov => score_simple_average cov EVIDENCE_UNIT_KEYS)

/-- The C-score of an event list: simple average over CRITICAL_UNITS. -/
def c_score_of (events : List Event) : Option ℚ :=
  (compute_evidence_coverage events).bind
    (fun cov => score_simple_average cov CRITICAL_UNITS)

/-- The core determinability of an event list: weighted by CORE_WEIGHTS. -/
def core_of (events : List Event) : Option ℚ :=
  (compute_evidence_coverage events).map
    (fun cov => score_weighted cov CORE_WEIGHTS)

/-- The supply-chain determinability of an event list. -/
def supply_of (events : List Event) : Option ℚ :=
  (compute_evidence_coverage events).map
    (fun cov => score_weighted cov SUPPLY_WEIGHTS)

/-- The unanswerable question list of an event list. -/
def unanswerable_of (events : List Event) : Option (List QEntry) :=
  (compute_evidence_coverage events).bind unanswerable_questions

/-! The built-in reference event set (function sample_uber_atg_ntsb_2018);
the events list of the returned log, after the event_to_dict and
dict_to_events round trip of main, which preserves every field read by
the engine. -/

/-- The shared SourceRef of the sample events. -/
def sample_src : SourceRef :=
  { ref := "NTSB HWY18MH010 summary (public)"
  , note := "Summary: ADS detected pedestrian 5.6s before impact; never classified as pedestrian; never predicted path; emergency braking precluded; operator gaze; steering at -0.02s; speed 39 mph at impact."
  , confidence := "high" }

/-- The 11 events of sample_uber_atg_ntsb_2018, with the timestamps, types,
actors and data payloads of the source. -/
def sample_uber_atg_ntsb_2018 : List Event :=
  [⟨none, "time.base", "system",
    [("time_reference", .str "t_rel_s (impact=0)"),
     ("impact_definition", .str "first contact with pedestrian"),
     ("t_abs_iso_if_known", .null),
     ("notes", .str "Public summary only.")], some sample_src⟩,
   ⟨none, "authority.mode", "ads",
    [("mode", .str "autonomous_active"),
     ("notes", .str "ADS controlled at crash time.")], some sample_src⟩,
   ⟨none, "vehicle.state", "ads",
    [("speed_mph_near_collision_site", .num 45.0),
     ("lane", .str "right lane"),
     ("notes", .str "Approached at 45 mph (exact t not disclosed).")], some sample_src⟩,
   ⟨some (-5.6), "perception.detect", "ads",
    [("object", .obj [("type", .str "pedestrian_with_bicycle"), ("id", .str "obj1")]),
     ("detected", .bool true),
     ("distance_m", .null),
     ("notes", .str "Detected 5.6 s before impact.")], some sample_src⟩,
   ⟨none, "perception.classification", "ads",
    [("object_id", .str "obj1"),
     ("classified_as", .str "unstable"),
     ("confidence", .null),
     ("notes", .str "Never accurately classified as pedestrian.")], some sample_src⟩,
   ⟨none, "prediction.path", "ads",
    [("object_id", .str "obj1"),
     ("predicted_path_available", .bool false),
     ("ttc_s", .null),
     ("notes", .str "Never predicted her path.")], some sample_src⟩,
   ⟨none, "risk.collision_imminent", "ads",
    [("imminent_determined", .bool true),
     ("ttc_s", .null),
     ("notes", .str "Timing not disclosed.")], some sample_src⟩,
   ⟨none, "control.aeb_policy", "ads",
    [("aeb_armed", .null),
     ("aeb_triggered", .null),
     ("emergency_braking_precluded_by_design", .bool true),
     ("notes", .str "Design precluded emergency braking.")], some sample_src⟩,
   ⟨some (-1.0), "human.attention", "operator",
    [("gaze_to_road", .bool true),
     ("hands_on_wheel", .null),
     ("notes", .str "Gaze to road about 1 s before impact.")], some sample_src⟩,
   ⟨some (-0.02), "human.control_input", "operator",
    [("steering", .str "left"),
     ("brake", .null),
     ("throttle", .null),
     ("notes", .str "Steering left 0.02 s before impact.")], some sample_src⟩,
   ⟨some 0.0, "impact", "vehicle",
    [("impact_with", .str "pedestrian"),
     ("speed_mph", .num 39.0),
     ("speed_kmh", .null),
     ("notes", .str "Impact speed 39 mph.")], some sample_src⟩]

/-! Helper layer for the proofs: each unit block of
compute_evidence_coverage chooses a status by a condition ladder; the
functions below name those ladders so that the coverage a given event list
produces can be written in closed form (lemma compute_eq). -/

/-- Status chosen by the time.base block. -/
def status_time_base (events : List Event) : String :=
  if has_event_type events "impact" ∧ 2 ≤ count_timed_events events then "ok"
  else if has_event_type events "impact" then "partial"
  else "missing"

/-- Status chosen by the authority.mode_timeline block. -/
def status_authority (events : List Event) : String :=
  if has_timed_event events "authority.mode" then "ok"
  else if has_event events "authority.mode" then "partial"
  else "missing"

/-- Status chosen by the perception.object_timeline block. -/
def status_perception (events : List Event) : String :=
  if has_event events "perception.detect" ∧ has_event events "perception.classification"
      ∧ has_timed_event events "perception.detect" then "ok"
  else if has_event events "perception.detect" ∨ has_event events "perception.classification" then
    "partial"
  else "missing"

/-- Status chosen by the prediction.risk_timeline block. -/
def status_prediction (events : List Event) : String :=
  if (has_event events "prediction." ∨ has_event events "risk.")
      ∧ (has_timed_event events "prediction." ∨ has_timed_event events "risk.") then "ok"
  else if has_event events "prediction." ∨ has_event events "risk." then "partial"
  else "missing"

/-- Status chosen by the planning.choice_timeline block. -/
def status_planning (events : List Event) : String :=
  if has_event events "planning." then
    if has_timed_event events "planning." then "ok" else "partial"
  else "missing"

/-- Status chosen by the control.command_timeline block. -/
def status_control (events : List Event) : String :=
  if has_cmd events ∧ has_cmd_t events then "ok"
  else if has_cmd events ∨ has_event_type events "control.aeb_policy"
      ∨ has_event events "control." then "partial"
  else "missing"

/-- Status chosen by the human.input_attention block. -/
def status_human (events : List Event) : String :=
  if has_event events "human." ∧ has_timed_event events "human." then "ok"
  else if has_event events "human." then "partial"
  else "missing"

/-- Status chosen by the software.version_manifest block. -/
def status_software (events : List Event) : String :=
  if has_event events "software.version" then "ok" else "missing"

/-- Status chosen by the integrity.tamper_evidence block. -/
def status_integrity (events : List Event) : String :=
  if has_event events "integrity." then "ok" else "missing"

/-- The coverage entry recorded for a recognized status string. -/
def entryOf (s : String) : CovEntry :=
  ⟨s, (STATUS_SCORE.lookup s).getD 0⟩

/-- Closed form of the coverage mapping compute_evidence_coverage builds. -/
def covList (events : List Event) : Cov :=
  [("time.base", entryOf (status_time_base events)),
   ("authority.mode_timeline", entryOf (status_authority events)),
   ("perception.object_timeline", entryOf (status_perception events)),
   ("prediction.risk_timeline", entryOf (status_prediction events)),
   ("planning.choice_timeline", entryOf (status_planning events)),
   ("control.command_timeline", entryOf (status_control events)),
   ("human.input_attention", entryOf (status_human events)),
   ("software.version_manifest", entryOf (status_software events)),
   ("integrity.tamper_evidence", entryOf (status_integrity events))]

/-- Status of a unit in the closed-form coverage of an event list. -/
def status_of_unit (events : List Event) (u : String) : String :=
  (((covList events).lookup u).map CovEntry.status).getD ""

/-- Property of a type string matching one of the seven command type
strings of the control block, spelled out. -/
def cmdType (t : String) : Prop :=
  strStartsWith t "control.command" = true
    ∨ strStartsWith t "control.brake" = true
    ∨ strStartsWith t "control.steer" = true
    ∨ strStartsWith t "control.longitudinal" = true
    ∨ strStartsWith t "control.lateral" = true
    ∨ strStartsWith t "control.actuator" = true
    ∨ strStartsWith t "control.response" = true

/-- Sum of score times weight over the weight entries whose key the coverage
contains (the specification form of the accumulator of score_weighted). -/
def swRestricted (cov : Cov) (weights : List (String × ℚ)) : ℚ :=
  (weights.filterMap (fun kw => (cov.lookup kw.1).map (fun en => en.score * kw.2))).sum

/-- Sum of the weights whose key the coverage contains. -/
def wRestricted (cov : Cov) (weights : List (String × ℚ)) : ℚ :=
  ((weights.filter (fun kw => (cov.lookup kw.1).isSome)).map (fun kw => kw.2)).sum

/-- The unanswerable question list in closed form: the questions whose
backing unit does not carry status ok in the closed-form coverage. -/
def unansList (events : List Event) : List QEntry :=
  (questions.filter (fun q => status_of_unit events q.unit ≠ "ok")).map
    (fun q => ⟨q.id, q.question, q.unit, status_of_unit events q.unit⟩)

/-- The coverage the classifier produces for the empty event list. -/
def covEmpty : Cov :=
  [("time.base", ⟨"missing", 0⟩), ("authority.mode_timeline", ⟨"missing", 0⟩),
   ("perception.object_timeline", ⟨"missing", 0⟩), ("prediction.risk_timeline", ⟨"missing", 0⟩),
   ("planning.choice_timeline", ⟨"missing", 0⟩), ("control.command_timeline", ⟨"missing", 0⟩),
   ("human.input_attention", ⟨"missing", 0⟩), ("software.version_manifest", ⟨"missing", 0⟩),
   ("integrity.tamper_evidence", ⟨"missing", 0⟩)]

/-- The coverage the classifier produces for the sample event set. -/
def sampleCov : Cov :=
  [("time.base", ⟨"ok", 1⟩), ("authority.mode_timeline", ⟨"partial", 1/2⟩),
   ("perception.object_timeline", ⟨"ok", 1⟩), ("prediction.risk_timeline", ⟨"partial", 1/2⟩),
   ("planning.choice_timeline", ⟨"missing", 0⟩), ("control.command_timeline", ⟨"partial", 1/2⟩),
   ("human.input_attention", ⟨"ok", 1⟩), ("software.version_manifest", ⟨"missing", 0⟩),
   ("integrity.tamper_evidence", ⟨"missing", 0⟩)]

/-- An event is relevant to one of the four critical units exactly when its
type starts with one of the type prefix strings those four unit rules
read: planning., control., software.version, or integrity. -/
def relevantToCritical (e : Event) : Bool :=
  strStartsWith e.type "planning." || strStartsWith e.type "control."
    || strStartsWith e.type "software.version" || strStartsWith e.type "integrity."

/-- Events whose types only start with impact without being equal to it,
used to exhibit the exact-match behaviour of the impact rules. -/
def impactLikeEvents : List Event :=
  [⟨some 0, "impact.confirmed", "vehicle",
    [("speed_mph", .num 39.0), ("speed_kmh", .null)], none⟩,
   ⟨some (-1.0), "human.attention", "operator", [], none⟩]

lemma step_time_base_eq (events : List Event) (cov : Cov) :
    step_time_base events cov
      = some (cov ++ [("time.base", entryOf (status_time_base events))]) := by
  unfold step_time_base status_time_base
  split_ifs <;> rfl

lemma step_authority_eq (events : List Event) (cov : Cov) :
    step_authority events cov
      = some (cov ++ [("authority.mode_timeline", entryOf (status_authority events))]) := by
  unfold step_authority status_authority
  split_ifs <;> rfl

lemma step_perception_eq (events : List Event) (cov : Cov) :
    step_perception events cov
      = some (cov ++ [("perception.object_timeline", entryOf (status_perception events))]) := by
  unfold step_perception status_perception
  split_ifs <;> rfl

lemma step_prediction_eq (events : List Event) (cov : Cov) :
    step_prediction events cov
      = some (cov ++ [("prediction.risk_timeline", entryOf (status_prediction events))]) := by
  unfold step_prediction status_prediction
  split_ifs <;> rfl

lemma step_planning_eq (events : List Event) (cov : Cov) :
    step_planning events cov
      = some (cov ++ [("planning.choice_timeline", entryOf (status_planning events))]) := by
  unfold step_planning status_planning
  split_ifs <;> rfl

lemma step_control_eq (events : List Event) (cov : Cov) :
    step_control events cov
      = some (cov ++ [("control.command_timeline", entryOf (status_control events))]) := by
  unfold step_control status_control
  split_ifs <;> rfl

lemma step_human_eq (events : List Event) (cov : Cov) :
    step_human events cov
      = some (cov ++ [("human.input_attention", entryOf (status_human events))]) := by
  unfold step_human status_human
  split_ifs <;> rfl

lemma step_software_eq (events : List Event) (cov : Cov) :
    step_software events cov
      = some (cov ++ [("software.version_manifest", entryOf (status_software events))]) := by
  unfold step_software status_software
  split_ifs <;> rfl

lemma step_integrity_eq (events : List Event) (cov : Cov) :
    step_integrity events cov
      = some (cov ++ [("integrity.tamper_evidence", entryOf (status_integrity events))]) := by
  unfold step_integrity status_integrity
  split_ifs <;> rfl

/-- The classifier never fails and produces exactly the closed-form coverage. -/
lemma compute_eq (events : List Event) :
    compute_evidence_coverage events = some (covList events) := by
  simp [compute_evidence_coverage, step_time_base_eq, step_authority_eq,
        step_perception_eq, step_prediction_eq, step_planning_eq, step_control_eq,
        step_human_eq, step_software_eq, step_integrity_eq, covList]

lemma statusAt_eq (events : List Event) (u : String) :
    statusAt events u = ((covList events).lookup u).map CovEntry.status := by
  rw [statusAt, compute_eq, Option.some_bind]

lemma status_of_unit_time_base (events : List Event) :
    status_of_unit events "time.base" = status_time_base events := rfl

lemma status_of_unit_authority (events : List Event) :
    status_of_unit events "authority.mode_timeline" = status_authority events := rfl

lemma status_of_unit_perception (events : List Event) :
    status_of_unit events "perception.object_timeline" = status_perception events := rfl

lemma status_of_unit_prediction (events : List Event) :
    status_of_unit events "prediction.risk_timeline" = status_prediction events := rfl

lemma status_of_unit_planning (events : List Event) :
    status_of_unit events "planning.choice_timeline" = status_planning events := rfl

lemma status_of_unit_control (events : List Event) :
    status_of_unit events "control.command_timeline" = status_control events := rfl

lemma status_of_unit_human (events : List Event) :
    status_of_unit events "human.input_attention" = status_human events := rfl

lemma status_of_unit_software (events : List Event) :
    status_of_unit events "software.version_manifest" = status_software events := rfl

lemma status_of_unit_integrity (events : List Event) :
    status_of_unit events "integrity.tamper_evidence" = status_integrity events := rfl

lemma statusAt_time_base (events : List Event) :
    statusAt events "time.base" = some (status_time_base events) := by
  rw [statusAt_eq]; rfl

lemma statusAt_perception (events : List Event) :
    statusAt events "perception.object_timeline" = some (status_perception events) := by
  rw [statusAt_eq]; rfl

lemma statusAt_control (events : List Event) :
    statusAt events "control.command_timeline" = some (status_control events) := by
  rw [statusAt_eq]; rfl

/-! Bridges between the Bool scanning utilities and their set semantics. -/

lemma has_event_iff (events : List Event) (pfx : String) :
    has_event events pfx = true ↔ ∃ e ∈ events, strStartsWith e.type pfx = true := by
  simp [has_event]

lemma has_event_type_iff (events : List Event) (t : String) :
    has_event_type events t = true ↔ ∃ e ∈ events, e.type = t := by
  simp [has_event_type]

lemma has_timed_event_iff (events : List Event) (pfx : String) :
    has_timed_event events pfx = true
      ↔ ∃ e ∈ events, strStartsWith e.type pfx = true ∧ e.t_rel_s ≠ none := by
  simp [has_timed_event, Option.isSome_iff_ne_none]

lemma count_timed_eq (events : List Event) :
    count_timed_events events = events.countP (fun e => e.t_rel_s.isSome) := by
  simp [count_timed_events, List.countP_eq_length_filter]

/-! Characterizations of the three-tier status ladders. -/

lemma ladder3_eq_ok (c1 c2 : Prop) [Decidable c1] [Decidable c2] :
    (if c1 then "ok" else if c2 then "partial" else "missing") = "ok" ↔ c1 := by
  split_ifs with h1 h2 <;> simp_all

lemma ladder3_eq_partial (c1 c2 : Prop) [Decidable c1] [Decidable c2] :
    (if c1 then "ok" else if c2 then "partial" else "missing") = "partial" ↔ ¬c1 ∧ c2 := by
  split_ifs with h1 h2 <;> simp_all

lemma ladder3_eq_missing (c1 c2 : Prop) [Decidable c1] [Decidable c2] :
    (if c1 then "ok" else if c2 then "partial" else "missing") = "missing" ↔ ¬c1 ∧ ¬c2 := by
  split_ifs with h1 h2 <;> simp_all

lemma ladder2_eq_ok (c : Prop) [Decidable c] :
    (if c then "ok" else "missing") = "ok" ↔ c := by
  split_ifs with h <;> simp_all

lemma laddern_eq_ok (c1 c2 : Prop) [Decidable c1] [Decidable c2] :
    (if c1 then if c2 then "ok" else "partial" else "missing") = "ok" ↔ c1 ∧ c2 := by
  split_ifs with h1 h2 <;> simp_all

lemma strStartsWith_weaken {s p q : String} (hq : strStartsWith p q = true)
    (h : strStartsWith s p = true) : strStartsWith s q = true := by
  simp only [strStartsWith, List.isPrefixOf_iff_prefix] at *
  exact hq.trans h

lemma has_cmd_iff (events : List Event) :
    has_cmd events = true ↔ ∃ e ∈ events, cmdType e.type := by
  simp [has_cmd, control_cmd_types, cmdType]

lemma has_cmd_t_iff (events : List Event) :
    has_cmd_t events = true ↔ ∃ e ∈ events, cmdType e.type ∧ e.t_rel_s ≠ none := by
  simp [has_cmd_t, control_cmd_types, cmdType, Option.isSome_iff_ne_none, and_assoc]

/-- C2: For every event list, perception.object_timeline is ok exactly when a
perception.detect event exists, a perception.classification event exists and
some perception.detect event is timed (a timed classification is not
required); partial exactly when a detect or classification event exists but
not all three conditions hold; missing exactly when neither exists. -/
theorem perception_object_timeline_spec (events : List Event) :
    (statusAt events "perception.object_timeline" = some "ok"
      ↔ ((∃ e ∈ events, strStartsWith e.type "perception.detect" = true)
          ∧ (∃ e ∈ events, strStartsWith e.type "perception.classification" = true)
          ∧ (∃ e ∈ events, strStartsWith e.type "perception.detect" = true ∧ e.t_rel_s ≠ none)))
    ∧ (statusAt events "perception.object_timeline" = some "partial"
      ↔ (((∃ e ∈ events, strStartsWith e.type "perception.detect" = true)
            ∨ (∃ e ∈ events, strStartsWith e.type "perception.classification" = true))
         ∧ ¬((∃ e ∈ events, strStartsWith e.type "perception.detect" = true)
              ∧ (∃ e ∈ events, strStartsWith e.type "perception.classification" = true)
              ∧ (∃ e ∈ events, strStartsWith e.type "perception.detect" = true ∧ e.t_rel_s ≠ none))))
    ∧ (statusAt events "perception.object_timeline" = some "missing"
      ↔ (¬(∃ e ∈ events, strStartsWith e.type "perception.detect" = true)
          ∧ ¬(∃ e ∈ events, strStartsWith e.type "perception.classification" = true))) := by
  rw [statusAt_perception, Option.some_inj, Option.some_inj, Option.some_inj,
      status_perception, ladder3_eq_ok, ladder3_eq_partial, ladder3_eq_missing,
      has_event_iff, has_event_iff, has_timed_event_iff]
  refine ⟨Iff.rfl, and_comm, ?_⟩
  constructor
  · rintro ⟨-, h2⟩
    exact ⟨fun h => h2 (Or.inl h), fun h => h2 (Or.inr h)⟩
  · rintro ⟨h1, h2⟩
    exact ⟨fun hc => h1 hc.1, fun hc => hc.elim h1 h2⟩

/-- C9: For every event list, time.base is ok exactly when an event with type
equal to impact exists and at least 2 events in total are timed; partial
exactly when an impact event exists but fewer than 2 events are timed;
missing exactly when no impact event exists. -/
theorem time_base_spec (events : List Event) :
    (statusAt events "time.base" = some "ok"
      ↔ ((∃ e ∈ events, e.type = "impact")
          ∧ 2 ≤ events.countP (fun e => e.t_rel_s.isSome)))
    ∧ (statusAt events "time.base" = some "partial"
      ↔ ((∃ e ∈ events, e.type = "impact")
          ∧ events.countP (fun e => e.t_rel_s.isSome) < 2))
    ∧ (statusAt events "time.base" = some "missing"
      ↔ ¬(∃ e ∈ events, e.type = "impact")) := by
  rw [statusAt_time_base, Option.some_inj, Option.some_inj, Option.some_inj,
      status_time_base, ladder3_eq_ok, ladder3_eq_partial, ladder3_eq_missing,
      has_event_type_iff, count_timed_eq]
  refine ⟨Iff.rfl, ?_, ?_⟩
  · constructor
    · rintro ⟨h1, h2⟩
      refine ⟨h2, ?_⟩
      by_contra hge
      push_neg at hge
      exact h1 ⟨h2, hge⟩
    · rintro ⟨h1, h2⟩
      exact ⟨fun hc => absurd hc.2 (by omega), h1⟩
  · constructor
    · rintro ⟨-, h2⟩
      exact h2
    · intro h
      exact ⟨fun hc => h hc.1, h⟩

/-- C4: For every event list, control.command_timeline is ok exactly when an
event matching one of the seven command type strings exists and one such
event is timed; partial exactly when it is not ok and an untimed command
event, a control.aeb_policy event, or any control.-typed event exists; and
missing exactly when no event whose type starts with control. exists. -/
theorem control_command_timeline_spec (events : List Event) :
    (statusAt events "control.command_timeline" = some "ok"
      ↔ ((∃ e ∈ events, cmdType e.type) ∧ (∃ e ∈ events, cmdType e.type ∧ e.t_rel_s ≠ none)))
    ∧ (statusAt events "control.command_timeline" = some "partial"
      ↔ (¬((∃ e ∈ events, cmdType e.type) ∧ (∃ e ∈ events, cmdType e.type ∧ e.t_rel_s ≠ none))
         ∧ ((∃ e ∈ events, cmdType e.type ∧ e.t_rel_s = none)
             ∨ (∃ e ∈ events, e.type = "control.aeb_policy")
             ∨ (∃ e ∈ events, strStartsWith e.type "control." = true))))
    ∧ (statusAt events "control.command_timeline" = some "missing"
      ↔ ¬(∃ e ∈ events, strStartsWith e.type "control." = true)) := by
  have hcmd_ctrl : ∀ t : String, cmdType t → strStartsWith t "control." = true := by
    intro t ht
    rcases ht with h | h | h | h | h | h | h <;>
      exact strStartsWith_weaken (by decide) h
  have hpol_ctrl : ∀ t : String, t = "control.aeb_policy" → strStartsWith t "control." = true := by
    rintro t rfl; decide
  rw [statusAt_control, Option.some_inj, Option.some_inj, Option.some_inj,
      status_control, ladder3_eq_ok, ladder3_eq_partial, ladder3_eq_missing,
      has_cmd_iff, has_cmd_t_iff, has_event_type_iff, has_event_iff]
  refine ⟨Iff.rfl, ?_, ?_⟩
  · constructor
    · rintro ⟨h1, h2⟩
      refine ⟨h1, ?_⟩
      rcases h2 with ⟨e, he, hc⟩ | h2 | h2
      · by_cases ht : e.t_rel_s = none
        · exact Or.inl ⟨e, he, hc, ht⟩
        · exact absurd ⟨⟨e, he, hc⟩, ⟨e, he, hc, ht⟩⟩ h1
      · exact Or.inr (Or.inl h2)
      · exact Or.inr (Or.inr h2)
    · rintro ⟨h1, h2⟩
      refine ⟨h1, ?_⟩
      rcases h2 with ⟨e, he, hc, _⟩ | h2 | h2
      · exact Or.inl ⟨e, he, hc⟩
      · exact Or.inr (Or.inl h2)
      · exact Or.inr (Or.inr h2)
  · constructor
    · rintro ⟨-, h2⟩
      intro hc
      exact h2 (Or.inr (Or.inr hc))
    · intro h
      refine ⟨fun hc => ?_, fun hc => ?_⟩
      · obtain ⟨e, he, hec⟩ := hc.1
        exact h ⟨e, he, hcmd_ctrl _ hec⟩
      · rcases hc with ⟨e, he, hec⟩ | ⟨e, he, het⟩ | hc
        · exact h ⟨e, he, hcmd_ctrl _ hec⟩
        · exact h ⟨e, he, hpol_ctrl _ het⟩
        · exact h hc

/-! Characterization of score_weighted through the restricted sums. -/

lemma score_weighted_foldl (cov : Cov) (w : List (String × ℚ)) (a b : ℚ) :
    w.foldl
      (fun (acc : ℚ × ℚ) kw =>
        match cov.lookup kw.1 with
        | none => acc
        | some en => (acc.1 + en.score * kw.2, acc.2 + kw.2)) (a, b)
      = (a + swRestricted cov w, b + wRestricted cov w) := by
  induction w generalizing a b with
  | nil => simp [swRestricted, wRestricted]
  | cons kw t ih =>
    cases h : cov.lookup kw.1 with
    | none =>
      simp [List.foldl_cons, h, ih, swRestricted, wRestricted,
            List.filterMap_cons, List.filter_cons]
    | some en =>
      simp [List.foldl_cons, h, ih, swRestricted, wRestricted,
            List.filterMap_cons, List.filter_cons, add_assoc]

lemma score_weighted_eq (cov : Cov) (w : List (String × ℚ)) :
    score_weighted cov w
      = if 0 < wRestricted cov w then swRestricted cov w / wRestricted cov w else 0 := by
  by_cases hw : w = []
  · subst hw
    simp [score_weighted, swRestricted, wRestricted]
  · simp only [score_weighted, if_neg hw, score_weighted_foldl, zero_add]

/-! Closed evaluations of the classifier on the two reference inputs. -/

lemma compute_sample :
    compute_evidence_coverage sample_uber_atg_ntsb_2018 = some sampleCov := by rfl

lemma compute_empty :
    compute_evidence_coverage [] = some covEmpty := by rfl

/-- C10: Only an event whose type equals impact exactly counts as an impact
event: when every event type differs from impact (even if some start with
impact), time.base is missing, the impact lookup fails, and the impact
speed metrics are absent. -/
theorem impact_exact_match_rules (events : List Event)
    (h : ∀ e ∈ events, e.type ≠ "impact") :
    statusAt events "time.base" = some "missing"
      ∧ find_event events "impact" = none
      ∧ (derive_metrics events).lookup "impact_speed_mph" = none
      ∧ (derive_metrics events).lookup "impact_speed_kmh" = none := by
  have hH : ¬(has_event_type events "impact" = true) := by
    rw [has_event_type_iff]
    rintro ⟨e, he, het⟩
    exact h e he het
  have hfind : find_event events "impact" = none := by
    rw [find_event, List.find?_eq_none]
    intro e he
    simp [h e he]
  refine ⟨?_, hfind, ?_, ?_⟩
  · rw [statusAt_time_base, Option.some_inj, status_time_base, ladder3_eq_missing]
    exact ⟨fun hc => hH hc.1, hH⟩
  · rcases hd : find_earliest_time events "perception.detect" with _ | d <;>
    rcases hg : find_earliest_time events "human.attention" with _ | g <;>
    rcases hs : find_earliest_time events "human.control_input" with _ | s <;>
      simp [derive_metrics, hd, hg, hs, hfind, List.lookup]
  · rcases hd : find_earliest_time events "perception.detect" with _ | d <;>
    rcases hg : find_earliest_time events "human.attention" with _ | g <;>
    rcases hs : find_earliest_time events "human.control_input" with _ | s <;>
      simp [derive_metrics, hd, hg, hs, hfind, List.lookup]

/-- Witness for C10 at a concrete list containing an impact.confirmed event
(a type that starts with impact but does not equal it). -/
theorem impact_exact_match_rules_witness :
    statusAt impactLikeEvents "time.base" = some "missing"
      ∧ find_event impactLikeEvents "impact" = none
      ∧ (derive_metrics impactLikeEvents).lookup "impact_speed_mph" = none
      ∧ (derive_metrics impactLikeEvents).lookup "impact_speed_kmh" = none :=
  impact_exact_match_rules impactLikeEvents (by decide)

/-- C3: The classifier is total: every event list yields the fully populated
coverage over the 9 unit keys (so the unrecognized-status error branch of
mark never fires); on the empty event list every unit is missing, all four
scores are 0, all 7 questions are unanswerable, and every value present in
the derived metrics mapping is null. -/
theorem classifier_total_empty_case :
    (∀ events : List Event,
        compute_evidence_coverage events = some (covList events)
          ∧ (covList events).map Prod.fst = EVIDENCE_UNIT_KEYS)
    ∧ EVIDENCE_UNIT_KEYS.map (fun u => statusAt ([] : List Event) u)
        = List.replicate 9 (some "missing")
    ∧ a_score_of [] = some 0
    ∧ c_score_of [] = some 0
    ∧ core_of [] = some 0
    ∧ supply_of [] = some 0
    ∧ (unanswerable_of []).map (fun l => l.map QEntry.id)
        = some ["Q1", "Q2", "Q3", "Q4", "Q5", "Q6", "Q7"]
    ∧ (unanswerable_of []).map List.length = some 7
    ∧ derive_metrics [] = [("lead_time_detection_s", Val.null),
        ("lead_time_operator_gaze_to_road_s", Val.null),
        ("lead_time_operator_steer_s", Val.null)] := by
  refine ⟨fun events => ⟨compute_eq events, rfl⟩, by decide, ?_, ?_, ?_, ?_, by rfl, by rfl, rfl⟩
  · have h : a_score_of [] = some (([(0 : ℚ), 0, 0, 0, 0, 0, 0, 0, 0]).sum / ((9 : ℕ) : ℚ)) := by
      rfl
    rw [h]
    norm_num
  · have h : c_score_of [] = some (([(0 : ℚ), 0, 0, 0]).sum / ((4 : ℕ) : ℚ)) := by
      rfl
    rw [h]
    norm_num
  · rw [core_of, compute_empty, Option.map_some']
    rw [score_weighted_eq]
    have hsw : swRestricted covEmpty CORE_WEIGHTS
        = ([(0 : ℚ) * 0.15, 0 * 0.25, 0 * 0.15, 0 * 0.10, 0 * 0.15, 0 * 0.15, 0 * 0.05]).sum := by
      rfl
    have hw : wRestricted covEmpty CORE_WEIGHTS
        = ([(0.15 : ℚ), 0.25, 0.15, 0.10, 0.15, 0.15, 0.05]).sum := by
      rfl
    rw [hsw, hw]
    norm_num
  · rw [supply_of, compute_empty, Option.map_some']
    rw [score_weighted_eq]
    have hsw : swRestricted covEmpty SUPPLY_WEIGHTS
        = ([(0 : ℚ) * 0.70, 0 * 0.30]).sum := by
      rfl
    have hw : wRestricted covEmpty SUPPLY_WEIGHTS = ([(0.70 : ℚ), 0.30]).sum := by
      rfl
    rw [hsw, hw]
    norm_num

/-- C1 counterexample: on the built-in sample event set the classifier puts
perception.object_timeline at ok, not at partial as claimed (the sample has
a timed perception.detect event and a perception.classification event,
which satisfies the ok rule). -/
theorem sample_perception_is_ok_not_partial :
    statusAt sample_uber_atg_ntsb_2018 "perception.object_timeline" = some "ok"
      ∧ ("ok" : String) ≠ "partial" :=
  ⟨by rfl, by decide⟩

/-- C1 amended: on the built-in sample event set, planning is missing,
control is partial, perception is ok, software and integrity are missing,
the C-score equals exactly 1/8, and exactly the 6 questions Q1, Q3, Q4,
Q5, Q6, Q7 are unanswerable. -/
theorem sample_audit_amended :
    statusAt sample_uber_atg_ntsb_2018 "planning.choice_timeline" = some "missing"
    ∧ statusAt sample_uber_atg_ntsb_2018 "control.command_timeline" = some "partial"
    ∧ statusAt sample_uber_atg_ntsb_2018 "perception.object_timeline" = some "ok"
    ∧ statusAt sample_uber_atg_ntsb_2018 "software.version_manifest" = some "missing"
    ∧ statusAt sample_uber_atg_ntsb_2018 "integrity.tamper_evidence" = some "missing"
    ∧ c_score_of sample_uber_atg_ntsb_2018 = some (1/8)
    ∧ (unanswerable_of sample_uber_atg_ntsb_2018).map (fun l => l.map QEntry.id)
        = some ["Q1", "Q3", "Q4", "Q5", "Q6", "Q7"]
    ∧ (unanswerable_of sample_uber_atg_ntsb_2018).map List.length = some 6 := by
  refine ⟨by rfl, by rfl, by rfl, by rfl, by rfl, ?_, by rfl, by rfl⟩
  have h : c_score_of sample_uber_atg_ntsb_2018
      = some (([(0 : ℚ), 1/2, 0, 0]).sum / ((4 : ℕ) : ℚ)) := by
    rfl
  rw [h]
  norm_num

/-- C8 counterexample: with a negative weight the restricted weight sum is
negative and score_weighted returns 0 instead of the claimed quotient of
restricted sums. -/
theorem score_weighted_formula_counterexample :
    score_weighted [("x", ⟨"ok", 1⟩)] [("x", -1)]
      ≠ swRestricted [("x", ⟨"ok", 1⟩)] [("x", -1)]
          / wRestricted [("x", ⟨"ok", 1⟩)] [("x", -1)] := by
  rw [score_weighted_eq]
  have hsw : swRestricted [("x", ⟨"ok", 1⟩)] [("x", -1)] = ([(1 : ℚ) * (-1)]).sum := by
    rfl
  have hw : wRestricted [("x", ⟨"ok", 1⟩)] [("x", -1)] = ([(-1 : ℚ)]).sum := by
    rfl
  rw [hsw, hw]
  norm_num

/-- C8 amended: score_weighted returns the quotient of the restricted sums
whenever the restricted weight sum is positive, and exactly 0 whenever the
restricted weight sum is nonpositive (in particular when it is 0, when the
weight table is empty, or when no weight key is in the coverage); it is a
total function, so no exception and no non-number can arise. -/
theorem score_weighted_spec (coverage : Cov) (weights : List (String × ℚ)) :
    (0 < wRestricted coverage weights →
        score_weighted coverage weights
          = swRestricted coverage weights / wRestricted coverage weights)
    ∧ (wRestricted coverage weights ≤ 0 → score_weighted coverage weights = 0) := by
  constructor <;> intro h
  · rw [score_weighted_eq, if_pos h]
  · rw [score_weighted_eq, if_neg (not_lt.mpr h)]

/-- Witness for C8 at a one-entry coverage and weight table with weight 1. -/
theorem score_weighted_spec_witness :
    score_weighted [("x", ⟨"ok", 1⟩)] [("x", 1)]
      = swRestricted [("x", ⟨"ok", 1⟩)] [("x", 1)]
          / wRestricted [("x", ⟨"ok", 1⟩)] [("x", 1)] :=
  (score_weighted_spec [("x", ⟨"ok", 1⟩)] [("x", 1)]).1
    (by
      have hw : wRestricted [("x", ⟨"ok", 1⟩)] [("x", 1)] = ([(1 : ℚ)]).sum := by
        rfl
      rw [hw]
      norm_num)

/-! Append monotonicity of the Bool scanning utilities. -/

lemma has_event_append {E F : List Event} {pfx : String}
    (h : has_event E pfx = true) : has_event (E ++ F) pfx = true := by
  simp only [has_event, List.any_append, Bool.or_eq_true]
  exact Or.inl h

lemma has_timed_event_append {E F : List Event} {pfx : String}
    (h : has_timed_event E pfx = true) : has_timed_event (E ++ F) pfx = true := by
  simp only [has_timed_event, List.any_append, Bool.or_eq_true]
  exact Or.inl h

lemma has_event_type_append {E F : List Event} {t : String}
    (h : has_event_type E t = true) : has_event_type (E ++ F) t = true := by
  simp only [has_event_type, List.any_append, Bool.or_eq_true]
  exact Or.inl h

lemma has_cmd_append {E F : List Event}
    (h : has_cmd E = true) : has_cmd (E ++ F) = true := by
  simp only [has_cmd, List.any_append, Bool.or_eq_true]
  exact Or.inl h

lemma has_cmd_t_append {E F : List Event}
    (h : has_cmd_t E = true) : has_cmd_t (E ++ F) = true := by
  simp only [has_cmd_t, List.any_append, Bool.or_eq_true]
  exact Or.inl h

/-! Appending events never downgrades a question-backing unit from ok. -/

lemma status_authority_mono (E F : List Event)
    (h : status_authority E = "ok") : status_authority (E ++ F) = "ok" := by
  unfold status_authority at h ⊢
  rw [ladder3_eq_ok] at h ⊢
  exact has_timed_event_append h

lemma status_perception_mono (E F : List Event)
    (h : status_perception E = "ok") : status_perception (E ++ F) = "ok" := by
  unfold status_perception at h ⊢
  rw [ladder3_eq_ok] at h ⊢
  exact ⟨has_event_append h.1, has_event_append h.2.1, has_timed_event_append h.2.2⟩

lemma status_prediction_mono (E F : List Event)
    (h : status_prediction E = "ok") : status_prediction (E ++ F) = "ok" := by
  unfold status_prediction at h ⊢
  rw [ladder3_eq_ok] at h ⊢
  exact ⟨h.1.imp has_event_append has_event_append,
         h.2.imp has_timed_event_append has_timed_event_append⟩

lemma status_planning_mono (E F : List Event)
    (h : status_planning E = "ok") : status_planning (E ++ F) = "ok" := by
  unfold status_planning at h ⊢
  rw [laddern_eq_ok] at h ⊢
  exact ⟨has_event_append h.1, has_timed_event_append h.2⟩

lemma status_control_mono (E F : List Event)
    (h : status_control E = "ok") : status_control (E ++ F) = "ok" := by
  unfold status_control at h ⊢
  rw [ladder3_eq_ok] at h ⊢
  exact ⟨has_cmd_append h.1, has_cmd_t_append h.2⟩

lemma status_software_mono (E F : List Event)
    (h : status_software E = "ok") : status_software (E ++ F) = "ok" := by
  unfold status_software at h ⊢
  rw [ladder2_eq_ok] at h ⊢
  exact has_event_append h

lemma status_integrity_mono (E F : List Event)
    (h : status_integrity E = "ok") : status_integrity (E ++ F) = "ok" := by
  unfold status_integrity at h ⊢
  rw [ladder2_eq_ok] at h ⊢
  exact has_event_append h

/-! Closed form of the unanswerable question list along the pipeline. -/

lemma unans_go (events : List Event) (qs : List Question) :
    ∀ out : List QEntry,
      (∀ q ∈ qs, ((covList events).lookup q.unit).isSome = true) →
      List.foldlM
        (fun out q =>
          match (covList events).lookup q.unit with
          | none => none
          | some en =>
              some (if en.status ≠ "ok" then
                      out ++ [⟨q.id, q.question, q.unit, en.status⟩]
                    else out))
        out qs
        = some (out ++ (qs.filter (fun q => status_of_unit events q.unit ≠ "ok")).map
            (fun q => ⟨q.id, q.question, q.unit, status_of_unit events q.unit⟩)) := by
  induction qs with
  | nil =>
    intro out h
    simp
  | cons q t ih =>
    intro out h
    obtain ⟨en, hen⟩ := Option.isSome_iff_exists.mp (h q (List.mem_cons_self q t))
    have hst : status_of_unit events q.unit = en.status := by
      rw [status_of_unit, hen]
      rfl
    have ht : ∀ p ∈ t, ((covList events).lookup p.unit).isSome = true :=
      fun p hp => h p (List.mem_cons_of_mem q hp)
    rw [List.foldlM_cons, hen]
    simp only [Option.bind_eq_bind, Option.some_bind]
    by_cases hok : en.status = "ok"
    · rw [if_neg (fun hne => hne hok), ih out ht]
      simp [List.filter_cons, hst, hok]
    · rw [if_pos hok, ih _ ht]
      simp [List.filter_cons, hst, hok, List.append_assoc]

/-- The unanswerable question list of an event list, in closed form. -/
lemma unans_eq (events : List Event) :
    unanswerable_of events = some (unansList events) := by
  rw [unanswerable_of, compute_eq, Option.some_bind, unanswerable_questions]
  rw [unans_go events questions []]
  · rw [unansList, List.nil_append]
  · intro q hq
    simp only [questions, List.mem_cons, List.not_mem_nil, or_false] at hq
    rcases hq with rfl | rfl | rfl | rfl | rfl | rfl | rfl <;> rfl

lemma length_filter_mono {α : Type} (l : List α) (p q : α → Bool)
    (h : ∀ a ∈ l, p a = true → q a = true) :
    (l.filter p).length ≤ (l.filter q).length := by
  induction l with
  | nil => simp
  | cons a t ih =>
    have iht := ih (fun x hx hp => h x (List.mem_cons_of_mem a hx) hp)
    simp only [List.filter_cons]
    cases hp : p a
    · cases hq : q a
      · simpa using iht
      · simpa using Nat.le_succ_of_le iht
    · rw [h a (List.mem_cons_self a t) hp]
      simpa using iht

/-- C6: Appending events never lengthens the unanswerable question list
(so removing events never shortens it); the list never has more than 7
entries; and its question ids never repeat. -/
theorem unanswerable_monotone_bounded (E F : List Event) :
    unanswerable_of (E ++ F) = some (unansList (E ++ F))
    ∧ unanswerable_of E = some (unansList E)
    ∧ (unansList (E ++ F)).length ≤ (unansList E).length
    ∧ (unansList E).length ≤ 7
    ∧ ((unansList E).map QEntry.id).Nodup := by
  refine ⟨unans_eq _, unans_eq _, ?_, ?_, ?_⟩
  · rw [unansList, unansList, List.length_map, List.length_map]
    apply length_filter_mono
    intro q hq hp
    rw [decide_eq_true_eq] at hp ⊢
    simp only [questions, List.mem_cons, List.not_mem_nil, or_false] at hq
    rcases hq with rfl | rfl | rfl | rfl | rfl | rfl | rfl <;>
      simp only [status_of_unit_authority, status_of_unit_perception,
                 status_of_unit_prediction, status_of_unit_planning,
                 status_of_unit_control, status_of_unit_software,
                 status_of_unit_integrity] at hp ⊢
    · exact fun hok => hp (status_authority_mono E F hok)
    · exact fun hok => hp (status_perception_mono E F hok)
    · exact fun hok => hp (status_prediction_mono E F hok)
    · exact fun hok => hp (status_planning_mono E F hok)
    · exact fun hok => hp (status_control_mono E F hok)
    · exact fun hok => hp (status_software_mono E F hok)
    · exact fun hok => hp (status_integrity_mono E F hok)
  · rw [unansList, List.length_map]
    exact le_trans (List.length_filter_le _ _) (by rfl)
  · have hids : (unansList E).map QEntry.id
        = (questions.filter (fun q => status_of_unit E q.unit ≠ "ok")).map
            (fun q => q.id) := by
      rw [unansList, List.map_map]
      rfl
    rw [hids]
    exact ((List.filter_sublist questions).map (fun q => q.id)).nodup (by decide)

/-! Claim C7 machinery: the four critical unit rules only read events whose
type starts with one of the four critical type prefix strings. -/

lemma any_eq_of_filter_eq {l l' : List Event} (r f : Event → Bool)
    (himp : ∀ e, f e = true → r e = true)
    (h : l.filter r = l'.filter r) : l.any f = l'.any f := by
  have key : ∀ m : List Event, m.any f = (m.filter r).any f := by
    intro m
    induction m with
    | nil => rfl
    | cons a t ih =>
      cases hf : f a
      · cases hr : r a <;>
          simp [List.filter_cons, hr, List.any_cons, hf, ih]
      · have hra := himp a hf
        simp [List.filter_cons, hra, List.any_cons, hf]
  rw [key l, key l', h]

lemma startsWith_planning_relevant (e : Event)
    (h : strStartsWith e.type "planning." = true) : relevantToCritical e = true := by
  simp [relevantToCritical, h]

lemma startsWith_control_relevant (e : Event)
    (h : strStartsWith e.type "control." = true) : relevantToCritical e = true := by
  simp [relevantToCritical, h]

lemma startsWith_software_relevant (e : Event)
    (h : strStartsWith e.type "software.version" = true) : relevantToCritical e = true := by
  simp [relevantToCritical, h]

lemma startsWith_integrity_relevant (e : Event)
    (h : strStartsWith e.type "integrity." = true) : relevantToCritical e = true := by
  simp [relevantToCritical, h]

lemma cmd_any_implies_control {e : Event}
    (h : control_cmd_types.any (fun p => strStartsWith e.type p) = true) :
    strStartsWith e.type "control." = true := by
  simp only [control_cmd_types, List.any_cons, List.any_nil, Bool.or_eq_true,
             Bool.or_false] at h
  rcases h with h | h | h | h | h | h | h <;> exact strStartsWith_weaken (by decide) h

lemma status_planning_of_filter_eq {E E' : List Event}
    (h : E.filter relevantToCritical = E'.filter relevantToCritical) :
    status_planning E = status_planning E' := by
  have h1 : has_event E "planning." = has_event E' "planning." :=
    any_eq_of_filter_eq relevantToCritical _ startsWith_planning_relevant h
  have h2 : has_timed_event E "planning." = has_timed_event E' "planning." := by
    apply any_eq_of_filter_eq relevantToCritical _ _ h
    intro e he
    rw [Bool.and_eq_true] at he
    exact startsWith_planning_relevant e he.1
  simp only [status_planning, has_event, has_timed_event] at h1 h2 ⊢
  simp only [h1, h2]

lemma status_control_of_filter_eq {E E' : List Event}
    (h : E.filter relevantToCritical = E'.filter relevantToCritical) :
    status_control E = status_control E' := by
  have h1 : has_cmd E = has_cmd E' := by
    apply any_eq_of_filter_eq relevantToCritical _ _ h
    intro e he
    exact startsWith_control_relevant e (cmd_any_implies_control he)
  have h2 : has_cmd_t E = has_cmd_t E' := by
    apply any_eq_of_filter_eq relevantToCritical _ _ h
    intro e he
    rw [Bool.and_eq_true] at he
    exact startsWith_control_relevant e (cmd_any_implies_control he.1)
  have h3 : has_event_type E "control.aeb_policy" = has_event_type E' "control.aeb_policy" := by
    apply any_eq_of_filter_eq relevantToCritical _ _ h
    intro e he
    rw [beq_iff_eq] at he
    apply startsWith_control_relevant
    rw [he]
    decide
  have h4 : has_event E "control." = has_event E' "control." :=
    any_eq_of_filter_eq relevantToCritical _ startsWith_control_relevant h
  simp only [status_control, has_cmd, has_cmd_t, has_event_type, has_event] at h1 h2 h3 h4 ⊢
  simp only [h1, h2, h3, h4]

lemma status_software_of_filter_eq {E E' : List Event}
    (h : E.filter relevantToCritical = E'.filter relevantToCritical) :
    status_software E = status_software E' := by
  have h1 : has_event E "software.version" = has_event E' "software.version" :=
    any_eq_of_filter_eq relevantToCritical _ startsWith_software_relevant h
  simp only [status_software, has_event] at h1 ⊢
  simp only [h1]

lemma status_integrity_of_filter_eq {E E' : List Event}
    (h : E.filter relevantToCritical = E'.filter relevantToCritical) :
    status_integrity E = status_integrity E' := by
  have h1 : has_event E "integrity." = has_event E' "integrity." :=
    any_eq_of_filter_eq relevantToCritical _ startsWith_integrity_relevant h
  simp only [status_integrity, has_event] at h1 ⊢
  simp only [h1]

lemma c_score_closed (events : List Event) :
    c_score_of events
      = some ((([entryOf (status_planning events), entryOf (status_control events),
                 entryOf (status_software events), entryOf (status_integrity events)]).map
            (fun en => en.score)).sum / ((4 : ℕ) : ℚ)) := by
  rw [c_score_of, compute_eq]
  rfl

/-- C7: Two event lists that agree on the events whose type starts with one
of the four critical type prefix strings get the same C-score: events
feeding only non-critical units cannot change it. -/
theorem c_score_noninterference (E E' : List Event)
    (h : E.filter relevantToCritical = E'.filter relevantToCritical) :
    c_score_of E = c_score_of E' := by
  rw [c_score_closed, c_score_closed, status_planning_of_filter_eq h,
      status_control_of_filter_eq h, status_software_of_filter_eq h,
      status_integrity_of_filter_eq h]

/-- Witness for C7: adding a human.attention event, which is irrelevant to
the critical units, leaves the C-score unchanged. -/
theorem c_score_noninterference_witness :
    c_score_of [⟨some (-1.0), "human.attention", "operator", [], none⟩]
      = c_score_of [] :=
  c_score_noninterference [⟨some (-1.0), "human.attention", "operator", [], none⟩] []
    (by rfl)

/-! Claim C5 machinery: characterization of the earliest-time scan and of
the metric mapping entries. -/

lemma rat_min?_eq_some_iff {xs : List ℚ} {a : ℚ} :
    xs.min? = some a ↔ a ∈ xs ∧ ∀ b ∈ xs, a ≤ b := by
  letI : Std.Antisymm ((· : ℚ) ≤ ·) := ⟨fun h1 h2 => le_antisymm h1 h2⟩
  simpa using List.min?_eq_some_iff (fun (_ : ℚ) => le_refl _)
    (fun a b => min_choice a b) (fun _ _ _ => le_min_iff)

lemma cand_mem (events : List Event) (pfx : String) (t : ℚ) :
    (t ∈ events.filterMap (fun e => if strStartsWith e.type pfx then e.t_rel_s else none))
      ↔ ∃ e ∈ events, strStartsWith e.type pfx = true ∧ e.t_rel_s = some t := by
  simp only [List.mem_filterMap]
  constructor
  · rintro ⟨e, he, hf⟩
    by_cases hc : strStartsWith e.type pfx = true
    · rw [if_pos hc] at hf
      exact ⟨e, he, hc, hf⟩
    · rw [if_neg hc] at hf
      cases hf
  · rintro ⟨e, he, hc, ht⟩
    refine ⟨e, he, ?_⟩
    rw [if_pos hc]
    exact ht

lemma find_earliest_none_iff (events : List Event) (pfx : String) :
    find_earliest_time events pfx = none
      ↔ ∀ e ∈ events, strStartsWith e.type pfx = true → e.t_rel_s = none := by
  rw [find_earliest_time, List.min?_eq_none_iff, List.filterMap_eq_nil_iff]
  constructor
  · intro h e he hc
    have := h e he
    rw [if_pos hc] at this
    exact this
  · intro h e he
    by_cases hc : strStartsWith e.type pfx = true
    · rw [if_pos hc]
      exact h e he hc
    · rw [if_neg hc]

lemma find_earliest_some (events : List Event) (pfx : String) (t : ℚ)
    (h : find_earliest_time events pfx = some t) :
    (∃ e ∈ events, strStartsWith e.type pfx = true ∧ e.t_rel_s = some t)
      ∧ ∀ e ∈ events, strStartsWith e.type pfx = true
          → ∀ u : ℚ, e.t_rel_s = some u → t ≤ u := by
  rw [find_earliest_time, rat_min?_eq_some_iff] at h
  refine ⟨(cand_mem events pfx t).mp h.1, ?_⟩
  intro e he hc u hu
  exact h.2 u ((cand_mem events pfx u).mpr ⟨e, he, hc, hu⟩)

lemma dm_lookup_gap_detect (events : List Event) :
    (derive_metrics events).lookup "gap_detect_to_gaze_s"
      = (match find_earliest_time events "perception.detect",
               find_earliest_time events "human.attention" with
         | some d, some g => some (Val.num (g - d))
         | _, _ => none) := by
  rcases hd : find_earliest_time events "perception.detect" with _ | d <;>
  rcases hg : find_earliest_time events "human.attention" with _ | g <;>
  rcases hs : find_earliest_time events "human.control_input" with _ | st <;>
  rcases hi : find_event events "impact" with _ | e <;>
    simp [derive_metrics, hd, hg, hs, hi, List.lookup]

lemma dm_lookup_gap_gaze (events : List Event) :
    (derive_metrics events).lookup "gap_gaze_to_steer_s"
      = (match find_earliest_time events "human.attention",
               find_earliest_time events "human.control_input" with
         | some g, some st => some (Val.num (st - g))
         | _, _ => none) := by
  rcases hd : find_earliest_time events "perception.detect" with _ | d <;>
  rcases hg : find_earliest_time events "human.attention" with _ | g <;>
  rcases hs : find_earliest_time events "human.control_input" with _ | st <;>
  rcases hi : find_event events "impact" with _ | e <;>
    simp [derive_metrics, hd, hg, hs, hi, List.lookup]

lemma dm_lookup_impact_mph (events : List Event) :
    (derive_metrics events).lookup "impact_speed_mph"
      = (find_event events "impact").map (fun e => dict_get e.data "speed_mph") := by
  rcases hd : find_earliest_time events "perception.detect" with _ | d <;>
  rcases hg : find_earliest_time events "human.attention" with _ | g <;>
  rcases hs : find_earliest_time events "human.control_input" with _ | st <;>
  rcases hi : find_event events "impact" with _ | e <;>
    simp [derive_metrics, hd, hg, hs, hi, List.lookup]

lemma dm_lookup_impact_kmh (events : List Event) :
    (derive_metrics events).lookup "impact_speed_kmh"
      = (find_event events "impact").map (fun e => dict_get e.data "speed_kmh") := by
  rcases hd : find_earliest_time events "perception.detect" with _ | d <;>
  rcases hg : find_earliest_time events "human.attention" with _ | g <;>
  rcases hs : find_earliest_time events "human.control_input" with _ | st <;>
  rcases hi : find_event events "impact" with _ | e <;>
    simp [derive_metrics, hd, hg, hs, hi, List.lookup]

/-- C5: The lead-time metrics hold the numeric minimum of the non-null
timestamps of the events matching the respective type prefix string and
are null when no such timed event exists; each gap metric is present
exactly when both operands exist and equals their signed difference; and
the impact speed fields are copied verbatim from the first event whose
type equals impact, being absent when there is none. -/
theorem derive_metrics_spec (events : List Event) :
    (∀ pfx : String, find_earliest_time events pfx = none
        ↔ ∀ e ∈ events, strStartsWith e.type pfx = true → e.t_rel_s = none)
    ∧ (∀ (pfx : String) (t : ℚ), find_earliest_time events pfx = some t
        → (∃ e ∈ events, strStartsWith e.type pfx = true ∧ e.t_rel_s = some t)
          ∧ ∀ e ∈ events, strStartsWith e.type pfx = true
              → ∀ u : ℚ, e.t_rel_s = some u → t ≤ u)
    ∧ (derive_metrics events).lookup "lead_time_detection_s"
        = some (optNum (find_earliest_time events "perception.detect"))
    ∧ (derive_metrics events).lookup "lead_time_operator_gaze_to_road_s"
        = some (optNum (find_earliest_time events "human.attention"))
    ∧ (derive_metrics events).lookup "lead_time_operator_steer_s"
        = some (optNum (find_earliest_time events "human.control_input"))
    ∧ (derive_metrics events).lookup "gap_detect_to_gaze_s"
        = (match find_earliest_time events "perception.detect",
                 find_earliest_time events "human.attention" with
           | some d, some g => some (Val.num (g - d))
           | _, _ => none)
    ∧ (derive_metrics events).lookup "gap_gaze_to_steer_s"
        = (match find_earliest_time events "human.attention",
                 find_earliest_time events "human.control_input" with
           | some g, some st => some (Val.num (st - g))
           | _, _ => none)
    ∧ (∀ e : Event, find_event events "impact" = some e
        → e.type = "impact"
          ∧ (∃ pre post, events = pre ++ e :: post ∧ ∀ x ∈ pre, x.type ≠ "impact")
          ∧ (derive_metrics events).lookup "impact_speed_mph"
              = some (dict_get e.data "speed_mph")
          ∧ (derive_metrics events).lookup "impact_speed_kmh"
              = some (dict_get e.data "speed_kmh"))
    ∧ (find_event events "impact" = none
        → (derive_metrics events).lookup "impact_speed_mph" = none
          ∧ (derive_metrics events).lookup "impact_speed_kmh" = none) := by
  refine ⟨find_earliest_none_iff events, find_earliest_some events,
          by rfl, by rfl, by rfl, dm_lookup_gap_detect events, dm_lookup_gap_gaze events,
          ?_, ?_⟩
  · intro e he
    have hfind := he
    rw [find_event, List.find?_eq_some] at hfind
    obtain ⟨hp, pre, post, hsplit, hpre⟩ := hfind
    rw [beq_iff_eq] at hp
    refine ⟨hp, ⟨pre, post, hsplit, ?_⟩, ?_, ?_⟩
    · intro x hx
      have := hpre x hx
      simpa using this
    · rw [dm_lookup_impact_mph, he, Option.map_some']
    · rw [dm_lookup_impact_kmh, he, Option.map_some']
  · intro he
    rw [dm_lookup_impact_mph, dm_lookup_impact_kmh, he]
    exact ⟨rfl, rfl⟩

/-- Witness for C5 at the built-in sample: the detect lead time is the
timestamp -5.6 of its only perception.detect event. -/
theorem derive_metrics_spec_witness :
    (∃ e ∈ sample_uber_atg_ntsb_2018,
        strStartsWith e.type "perception.detect" = true ∧ e.t_rel_s = some (-5.6))
      ∧ ∀ e ∈ sample_uber_atg_ntsb_2018, strStartsWith e.type "perception.detect" = true
          → ∀ u : ℚ, e.t_rel_s = some u → (-5.6 : ℚ) ≤ u :=
  (derive_metrics_spec sample_uber_atg_ntsb_2018).2.1 "perception.detect" (-5.6) (by rfl)

end SIA
